import Mathlib

/-!
Shallow embedding of the EcomDominator synchronization core
(`src/ecom_dominator/service.py` and the marketplace adapter variants under
`src/ecom_dominator/marketplaces/`).

Prices and money amounts are embedded as exact rationals, Python `None` as
`Option`, HTTP interaction as explicit transport outcomes
(`none` = a transport-level exception raised by the HTTP library,
`some r` = a response that arrived with a status code), and Python exception
propagation as `Except`.
-/

namespace EcomDominator

/-! ## Data model (models.py), restricted to the fields the service layer reads -/

/-- One `Listing` row as seen by the pricing engine: its platform, the
marketplace-assigned external id, and its status string. -/
structure PListing where
  platform : String
  external_id : String
  status : String
  deriving Repr, DecidableEq

/-- One `Product` row as seen by the pricing engine.  `daysSinceUpdate` is the
value of `(datetime.utcnow() - p.updated_at).days` precomputed for the run;
`none` models a `NULL` `updated_at` column (`if not p.updated_at: continue`). -/
structure Product where
  id : Nat := 0
  sku : String
  price : ℚ
  cost_price : Option ℚ
  quantity : Int
  daysSinceUpdate : Option Int
  listings : List PListing
  deriving Repr, DecidableEq

/-- Python `round(x, 2)`: rounding to two decimal places.  (Python rounds
half-to-even on binary floats; the claims use the same symbolic `round`, so
any fixed tie-breaking convention yields the same theorems.) -/
def round2 (q : ℚ) : ℚ := (round (q * 100) : ℤ) / 100

/-- The body of the `for p in products` loop of
`ServiceLayer.run_pricing_engine` (service.py lines 186-215) for a single
product.  Returns the (possibly re-priced) product together with the list of
`update_price(listing.external_id, new_price)` calls issued for it, one per
`active` listing whose platform has a client (`hasClient`).  Exceptions from
`update_price` are caught and logged in the source, so the calls are modelled
as fire-and-forget. -/
def pricingStep (hasClient : String → Bool) (p : Product) : Product × List (String × String × ℚ) :=
  match p.daysSinceUpdate with
  | none => (p, [])
  | some days_since_update =>
    if 30 < days_since_update ∧ 0 < p.quantity then
      let old_price := p.price
      let decayed := round2 (old_price * (98 / 100))
      let floor_price := (p.cost_price.getD 0) * (110 / 100)
      let new_price := if decayed < floor_price then floor_price else decayed
      if new_price < old_price then
        ({ p with price := new_price },
          (p.listings.filter fun l => l.status == "active" && hasClient l.platform).map
            fun l => (l.platform, l.external_id, new_price))
      else (p, [])
    else (p, [])

/-- `ServiceLayer.run_pricing_engine` (service.py lines 179-216): applies
`pricingStep` to every product and collects every `update_price` call issued
during the run. -/
def run_pricing_engine (hasClient : String → Bool) (ps : List Product) :
    List Product × List (String × String × ℚ) :=
  (ps.map fun p => (pricingStep hasClient p).1,
   ps.flatMap fun p => (pricingStep hasClient p).2)

/-- The floor-clamped decay candidate of the spec:
`max(round(price*0.98, 2), cost_price*1.10)` with `cost_price` defaulting
to `0` when unset. -/
def decayTarget (p : Product) : ℚ :=
  max (round2 (p.price * (98 / 100))) ((p.cost_price.getD 0) * (110 / 100))

theorem ite_lt_eq_max (a b : ℚ) : (if a < b then b else a) = max a b := by
  rcases lt_or_ge a b with h | h
  · simp [h, max_eq_right h.le]
  · simp [not_lt.mpr h, max_eq_left h]

theorem pricingStep_none (hc : String → Bool) (p : Product)
    (hd : p.daysSinceUpdate = none) : pricingStep hc p = (p, []) := by
  obtain ⟨i, s, pr, c, q, days, ls⟩ := p
  cases hd
  rfl

theorem pricingStep_some (hc : String → Bool) (p : Product) (d : Int)
    (hd : p.daysSinceUpdate = some d) :
    pricingStep hc p =
      if 30 < d ∧ 0 < p.quantity then
        (if decayTarget p < p.price then
          ({ p with price := decayTarget p },
            (p.listings.filter fun l => l.status == "active" && hc l.platform).map
              fun l => (l.platform, l.external_id, decayTarget p))
        else (p, []))
      else (p, []) := by
  obtain ⟨i, s, pr, c, q, days, ls⟩ := p
  cases hd
  show (if 30 < d ∧ 0 < q then _ else _) = _
  by_cases h1 : 30 < d ∧ 0 < q
  · simp only [h1, if_true]
    rw [ite_lt_eq_max]
    rfl
  · simp only [h1, if_false]

theorem pricingStep_fst_eligible (hc : String → Bool) (p : Product) (d : Int)
    (hd : p.daysSinceUpdate = some d) (h30 : 30 < d) (hq : 0 < p.quantity) :
    (pricingStep hc p).1.price =
      (if decayTarget p < p.price then decayTarget p else p.price) := by
  rw [pricingStep_some hc p d hd]
  simp only [h30, hq, and_self, if_true]
  by_cases h2 : decayTarget p < p.price
  · simp [h2]
  · simp [h2]

theorem pricingStep_fst_skip (hc : String → Bool) (p : Product)
    (h : p.quantity = 0 ∨ p.daysSinceUpdate = none ∨ ∃ d, p.daysSinceUpdate = some d ∧ d ≤ 30) :
    (pricingStep hc p).1 = p := by
  rcases hp : p.daysSinceUpdate with _ | d
  · rw [pricingStep_none hc p hp]
  · rw [pricingStep_some hc p d hp]
    rcases h with h | h | ⟨d', hd', hle⟩
    · simp [h]
    · rw [hp] at h; exact absurd h (by simp)
    · rw [hp] at hd'
      have hdd : d = d' := by injection hd'
      subst hdd
      simp [not_lt.mpr hle]

/-- C1: For every product with a recorded last-update timestamp,
`days_since_update > 30` and `quantity > 0`, one run of the pricing engine
sets its price to `max(round(price*0.98, 2), cost_price*1.10)` (cost treated
as 0 when unset) exactly when that value is strictly below the old price;
and a product with `quantity == 0`, or `days_since_update ≤ 30`, or no
recorded timestamp, is never changed.  The run is the per-product step mapped
over the whole product table. -/
theorem run_pricing_engine_decay (hc : String → Bool) (ps : List Product) :
    (run_pricing_engine hc ps).1 = ps.map (fun p => (pricingStep hc p).1) ∧
    (∀ p : Product, ∀ d : Int,
      p.daysSinceUpdate = some d → 30 < d → 0 < p.quantity →
      (pricingStep hc p).1.price =
        (if decayTarget p < p.price then decayTarget p else p.price)) ∧
    (∀ p : Product,
      p.quantity = 0 ∨ p.daysSinceUpdate = none ∨ (∃ d, p.daysSinceUpdate = some d ∧ d ≤ 30) →
      (pricingStep hc p).1 = p) :=
  ⟨rfl,
   fun p d hd h30 hq => pricingStep_fst_eligible hc p d hd h30 hq,
   fun p h => pricingStep_fst_skip hc p h⟩

/-- Closed witness for C1: the spec's scenario product (SKU "ABC-1",
price 20.00, cost 10.00, quantity 5, last updated 40 days ago) decays to
19.60 = 98/5. -/
theorem run_pricing_engine_decay_witness :
    (pricingStep (fun _ => true)
      { sku := "ABC-1", price := 20, cost_price := some 10, quantity := 5,
        daysSinceUpdate := some 40, listings := [] }).1.price = 98 / 5 := by
  have h := (run_pricing_engine_decay (fun _ => true) []).2.1
    { sku := "ABC-1", price := 20, cost_price := some 10, quantity := 5,
      daysSinceUpdate := some 40, listings := [] }
    40 rfl (by norm_num) (by norm_num)
  rw [h]
  norm_num [decayTarget, round2, round_eq]

theorem pricingStep_changed_ge_floor (hc : String → Bool) (p : Product)
    (h : (pricingStep hc p).1.price ≠ p.price) :
    (p.cost_price.getD 0) * (110 / 100) ≤ (pricingStep hc p).1.price := by
  rcases hp : p.daysSinceUpdate with _ | d
  · rw [pricingStep_none hc p hp] at h
    exact absurd rfl h
  · rw [pricingStep_some hc p d hp] at h ⊢
    by_cases helig : 30 < d ∧ 0 < p.quantity
    · simp only [helig, if_true] at h ⊢
      by_cases hlt : decayTarget p < p.price
      · simp only [hlt, if_true]
        exact le_max_right _ _
      · simp only [hlt, if_false] at h
        exact absurd rfl h
    · simp only [helig, if_false] at h
      exact absurd rfl h

theorem pricingStep_no_change_no_calls (hc : String → Bool) (p : Product)
    (h : p.price ≤ decayTarget p) :
    (pricingStep hc p).1 = p ∧ (pricingStep hc p).2 = [] := by
  rcases hp : p.daysSinceUpdate with _ | d
  · rw [pricingStep_none hc p hp]
    exact ⟨by trivial, by trivial⟩
  · rw [pricingStep_some hc p d hp]
    by_cases helig : 30 < d ∧ 0 < p.quantity
    · simp only [helig, if_true]
      have hnl : ¬ decayTarget p < p.price := not_lt.mpr h
      simp only [hnl, if_false]
      exact ⟨by trivial, by trivial⟩
    · simp only [helig, if_false]
      exact ⟨by trivial, by trivial⟩

/-- C2: The pricing engine never assigns a price below the floor
`cost_price*1.10` (whenever a run changes a product's price, the new price is
at least the floor); and whenever the floor-clamped decay candidate
`max(round(price*0.98,2), cost_price*1.10)` is ≥ the current price, the
product is left entirely unchanged and no `update_price` call is issued for
any of its listings.  The run's call list is the concatenation of the
per-product call lists. -/
theorem run_pricing_engine_floor (hc : String → Bool) (ps : List Product) :
    (∀ p : Product, (pricingStep hc p).1.price ≠ p.price →
      (p.cost_price.getD 0) * (110 / 100) ≤ (pricingStep hc p).1.price) ∧
    (∀ p : Product, p.price ≤ decayTarget p →
      (pricingStep hc p).1 = p ∧ (pricingStep hc p).2 = []) ∧
    (run_pricing_engine hc ps).2 = ps.flatMap (fun p => (pricingStep hc p).2) :=
  ⟨fun p h => pricingStep_changed_ge_floor hc p h,
   fun p h => pricingStep_no_change_no_calls hc p h,
   rfl⟩

/-- Closed witness for C2: the spec's second scenario (price 20.00, cost
19.00, quantity 5, 40 days old, one active listing): floor is 20.90, decayed
candidate 19.60 < floor, clamped value 20.90 ≥ 20.00, so the product is
unchanged and no `update_price` call is issued. -/
theorem run_pricing_engine_floor_witness :
    (pricingStep (fun _ => true)
      { sku := "ABC-1", price := 20, cost_price := some 19, quantity := 5,
        daysSinceUpdate := some 40,
        listings := [{ platform := "shopify", external_id := "x1", status := "active" }] }).1
      = { sku := "ABC-1", price := 20, cost_price := some 19, quantity := 5,
          daysSinceUpdate := some 40,
          listings := [{ platform := "shopify", external_id := "x1", status := "active" }] } ∧
    (pricingStep (fun _ => true)
      { sku := "ABC-1", price := 20, cost_price := some 19, quantity := 5,
        daysSinceUpdate := some 40,
        listings := [{ platform := "shopify", external_id := "x1", status := "active" }] }).2
      = [] :=
  (run_pricing_engine_floor (fun _ => true) []).2.1
    { sku := "ABC-1", price := 20, cost_price := some 19, quantity := 5,
      daysSinceUpdate := some 40,
      listings := [{ platform := "shopify", external_id := "x1", status := "active" }] }
    (by norm_num [decayTarget, round2, round_eq])

/-! ## Credential resolution and adapter factory (service.py lines 71-99,
models.py `MarketplaceCredentials`) -/

/-- One `MarketplaceCredentials` row.  `additional_config` is the JSON bag
(`none` models a `NULL` column); its values are modelled as strings. -/
structure CredsRecord where
  platform : String
  api_key : Option String
  api_secret : Option String
  access_token : Option String
  refresh_token : Option String
  marketplace_id : Option String
  merchant_id : Option String
  additional_config : Option (List (String × String))
  deriving Repr

/-- Python `additional_config.get(k) if additional_config else None`:
single-argument `dict.get`, `None` when the key is absent or the bag is
`NULL`. -/
def configGet (cfg : Option (List (String × String))) (k : String) : Option String :=
  match cfg with
  | none => none
  | some l => (l.find? fun kv => kv.1 == k).map (fun kv => kv.2)

/-- A Python dict of credential values: `c k = some v` means the key `k` is
present and holds the Python value `v` (`v = none` models Python `None`);
`c k = none` means the key is absent from the dict. -/
def CDict := String → Option (Option String)

/-- The value the `c_dict` literal of `ServiceLayer.get_client` (service.py
lines 76-90) assigns to one of its eleven named keys, before the
`**additional_config` spread. -/
def namedCredValue (c : CredsRecord) (k : String) : Option (Option String) :=
  if k == "api_key" then some c.api_key
  else if k == "access_token" then some c.access_token
  else if k == "shop_url" then some (configGet c.additional_config "shop_url")
  else if k == "merchant_id" then some c.merchant_id
  else if k == "client_id" then some (configGet c.additional_config "client_id")
  else if k == "client_secret" then some c.api_secret
  else if k == "shop_id" then some (configGet c.additional_config "shop_id")
  else if k == "shop_cipher" then some (configGet c.additional_config "shop_cipher")
  else if k == "app_key" then some (configGet c.additional_config "app_key")
  else if k == "marketplace_id" then some c.marketplace_id
  else if k == "refresh_token" then some c.refresh_token
  else none

/-- `c_dict` of `ServiceLayer.get_client`: the eleven named keys are always
present, and every `additional_config` entry is spread in on top (a spread
key overrides the named value, Python dict-literal semantics). -/
def build_c_dict (c : CredsRecord) : CDict := fun k =>
  match configGet c.additional_config k with
  | some v => some (some v)
  | none => namedCredValue c k

/-- Python `credentials.get(k, default)` on the credential dict: the default
is used only when the key is absent; a present key whose value is `None`
yields `None`. -/
def pyDictGet (d : CDict) (k : String) (default : Option String) : Option String :=
  match d k with
  | some v => v
  | none => default

/-- The credential-derived state of `AmazonSPAPIClient.__init__`
(amazon_client.py lines 15-33). -/
structure AmazonClient where
  access_token : Option String
  marketplace_id : Option String
  refresh_token : Option String
  client_id : Option String
  client_secret : Option String
  merchant_id : Option String
  deriving Repr, DecidableEq

/-- `AmazonSPAPIClient.__init__`: field extraction from the credential dict,
with `marketplace_id` defaulting to the fixed US marketplace constant
`"ATVPDKIKX0DER"` via two-argument `dict.get`.  (`merchant_id` is read
lazily by the operations via `self.credentials.get("merchant_id")`.) -/
def amazonInit (d : CDict) : AmazonClient :=
  { access_token := pyDictGet d "access_token" none
    marketplace_id := pyDictGet d "marketplace_id" (some "ATVPDKIKX0DER")
    refresh_token := pyDictGet d "refresh_token" none
    client_id := pyDictGet d "client_id" none
    client_secret := pyDictGet d "client_secret" none
    merchant_id := pyDictGet d "merchant_id" none }

/-- A constructed adapter, tagged by variant and carrying its resolved
credential dict (the Amazon variant carries its extracted `__init__`
state). -/
inductive Client where
  | shopify (d : CDict)
  | ebay (d : CDict)
  | amazon (a : AmazonClient)
  | walmart (d : CDict)
  | etsy (d : CDict)
  | facebook (d : CDict)
  | tiktok (d : CDict)

/-- `self.db.query(MarketplaceCredentials).filter(platform == p).first()`. -/
def findCreds (db : List CredsRecord) (platform : String) : Option CredsRecord :=
  db.find? fun c => c.platform == platform

/-- The seven platform names `ServiceLayer.get_client` dispatches on. -/
def knownPlatforms : List String :=
  ["shopify", "ebay", "amazon", "walmart", "etsy", "facebook", "tiktok"]

/-- `ServiceLayer.get_client` (service.py lines 71-99): `none` when no
credential row exists for the platform, otherwise resolve `c_dict` and
construct the matching adapter variant; unknown platform names fall through
to `none`. -/
def get_client (db : List CredsRecord) (platform : String) : Option Client :=
  match findCreds db platform with
  | none => none
  | some creds =>
    let d := build_c_dict creds
    if platform == "shopify" then some (.shopify d)
    else if platform == "ebay" then some (.ebay d)
    else if platform == "amazon" then some (.amazon (amazonInit d))
    else if platform == "walmart" then some (.walmart d)
    else if platform == "etsy" then some (.etsy d)
    else if platform == "facebook" then some (.facebook d)
    else if platform == "tiktok" then some (.tiktok d)
    else none

/-- Extracts the `marketplace_id` the Amazon adapter ended up with, when the
factory produced an Amazon adapter. -/
def amazonMarketplaceIdOf : Option Client → Option (Option String)
  | some (.amazon a) => some a.marketplace_id
  | _ => none

/-- An Amazon credential row whose `marketplace_id` column is `NULL` and
whose `additional_config` bag is `NULL` — the "no marketplace_id recorded"
case of C7. -/
def amazonCredsNoMarketplace : CredsRecord :=
  { platform := "amazon", api_key := none, api_secret := none,
    access_token := some "tok", refresh_token := none,
    marketplace_id := none, merchant_id := some "M1",
    additional_config := none }

/-- C7 (failing input): constructed through `get_client`, the Amazon adapter
for a credential row with no recorded `marketplace_id` gets
`marketplace_id = None`, not the fixed US constant: `get_client` materialises
the `"marketplace_id"` key in `c_dict` unconditionally (value `None`), so the
two-argument `dict.get` default in `AmazonSPAPIClient.__init__` never fires.
The default does fire when the key is genuinely absent from the dict, which
never happens for dicts built by `get_client`. -/
theorem amazon_marketplace_default_dead :
    amazonMarketplaceIdOf (get_client [amazonCredsNoMarketplace] "amazon") = some none ∧
    some none ≠ some (some "ATVPDKIKX0DER") ∧
    pyDictGet (fun _ => none) "marketplace_id" (some "ATVPDKIKX0DER") = some "ATVPDKIKX0DER" := by
  refine ⟨rfl, by simp, rfl⟩

/-! ## Publish orchestration (service.py lines 101-131)

In `publish_product` every store mutation sits inside the per-platform
`try` and is immediately followed by `self.db.commit()`, and the `except`
branch only logs; the listing table is therefore modelled post-commit, and a
platform whose `list_product` raises leaves it untouched.  The per-platform
`try/except` catches every exception, so the call as a whole returns
normally; adapter outcomes enter the model as `Except` values. -/

/-- One `Listing` row of the store. -/
structure ListingRow where
  product_id : Nat
  platform : String
  external_id : Option String
  status : Option String
  price : Option ℚ
  last_synced : Option Nat
  deriving Repr, DecidableEq

/-- A structlog entry: level, event text, and the sku/platform detail the
service layer attaches. -/
structure LogEntry where
  level : String
  event : String
  detail : String
  deriving Repr, DecidableEq

/-- Applies `f` to the first element satisfying `p` (SQLAlchemy
`.first()` followed by attribute assignment). -/
def updateFirst (p : α → Bool) (f : α → α) : List α → List α
  | [] => []
  | x :: xs => if p x then f x :: xs else x :: updateFirst p f xs

/-- The filter `Listing.product_id == product.id, Listing.platform ==
platform`. -/
def listingKey (pid : Nat) (platform : String) (l : ListingRow) : Bool :=
  l.product_id == pid && l.platform == platform

/-- The listing upsert of `publish_product` (service.py lines 120-127): query
the (product, platform) listing, create it if absent, then set
`external_id`, `status = "active"` and `price`. -/
def upsertListing (rows : List ListingRow) (pid : Nat) (platform : String)
    (extId : String) (price : ℚ) : List ListingRow :=
  if rows.any (listingKey pid platform) then
    updateFirst (listingKey pid platform)
      (fun l => { l with external_id := some extId, status := some "active", price := some price })
      rows
  else
    rows ++ [{ product_id := pid, platform := platform, external_id := some extId,
               status := some "active", price := some price, last_synced := none }]

/-- One iteration of the `for platform in platforms` loop of
`publish_product`: skip-with-warning when the factory yields no client,
upsert-and-commit on `list_product` success, log-and-continue when
`list_product` raises. -/
def publishStep (client : String → Option Client) (lp : Client → Except String String)
    (p : Product) (st : List ListingRow × List LogEntry) (platform : String) :
    List ListingRow × List LogEntry :=
  match client platform with
  | none => (st.1, st.2 ++ [⟨"warn", "No credentials for platform", platform⟩])
  | some cl =>
    match lp cl with
    | .error _ => (st.1, st.2 ++ [⟨"error", "Failed to publish", platform⟩])
    | .ok extId =>
      (upsertListing st.1 p.id platform extId p.price,
       st.2 ++ [⟨"info", "Published product", platform⟩])

/-- `ServiceLayer.publish_product` (service.py lines 101-131).  `client` is
the adapter factory, `lp` the network behaviour of each constructed
adapter's `list_product` for the published product. -/
def publish_product (client : String → Option Client) (lp : Client → Except String String)
    (products : List Product) (sku : String) (platforms : List String)
    (rows : List ListingRow) : List ListingRow × List LogEntry :=
  match products.find? (fun p => p.sku == sku) with
  | none => (rows, [⟨"error", "Product not found", sku⟩])
  | some p => platforms.foldl (publishStep client lp p) (rows, [])

theorem updateFirst_mem (p : α → Bool) (f : α → α) :
    ∀ l : List α, l.any p = true → ∃ y, y ∈ l ∧ p y = true ∧ f y ∈ updateFirst p f l := by
  intro l
  induction l with
  | nil => simp
  | cons x xs ih =>
    intro h
    by_cases hx : p x
    · exact ⟨x, List.mem_cons_self x xs, hx, by simp [updateFirst, hx]⟩
    · have hxs : xs.any p = true := by
        simpa [List.any_cons, hx] using h
      obtain ⟨y, hy, hpy, hmem⟩ := ih hxs
      exact ⟨y, List.mem_cons_of_mem _ hy, hpy, by simp [updateFirst, hx, hmem]⟩

theorem upsertListing_mem (rows : List ListingRow) (pid : Nat) (platform : String)
    (extId : String) (price : ℚ) :
    ∃ l ∈ upsertListing rows pid platform extId price,
      l.product_id = pid ∧ l.platform = platform ∧ l.external_id = some extId ∧
      l.status = some "active" ∧ l.price = some price := by
  unfold upsertListing
  by_cases h : rows.any (listingKey pid platform)
  · simp only [h, if_true]
    obtain ⟨y, hy, hpy, hmem⟩ := updateFirst_mem (listingKey pid platform)
      (fun l => { l with external_id := some extId, status := some "active", price := some price })
      rows h
    refine ⟨_, hmem, ?_, ?_, rfl, rfl, rfl⟩
    · have hsplit := (Bool.and_eq_true _ _).mp hpy
      show y.product_id = pid
      exact eq_of_beq hsplit.1
    · have hsplit := (Bool.and_eq_true _ _).mp hpy
      show y.platform = platform
      exact eq_of_beq hsplit.2
  · simp only [h, if_false]
    exact ⟨_, List.mem_append_right _ (List.mem_singleton.mpr rfl), rfl, rfl, rfl, rfl, rfl⟩

/-- C3: when `Publish(sku, [P1, P2])` runs with P1's adapter raising from
`list_product` and P2's succeeding with external id `x`, the final committed
listing table is exactly the one with the (product, P2) listing upserted
(external id `x`, status `"active"`, price = the product's price); the P1
failure appears in the logs as a `Failed to publish` error; and appending a
platform whose adapter raises to any publish run leaves the listing table
exactly as it was after the preceding platforms — a later failure never
rolls back an earlier committed success. -/
theorem publish_partial_failure_isolated
    (client : String → Option Client) (lp : Client → Except String String)
    (products : List Product) (sku : String) (p : Product) (P1 P2 : String)
    (c1 c2 : Client) (e x : String) (rows : List ListingRow)
    (hp : products.find? (fun q => q.sku == sku) = some p)
    (h1 : client P1 = some c1) (h1e : lp c1 = Except.error e)
    (h2 : client P2 = some c2) (h2x : lp c2 = Except.ok x) :
    (publish_product client lp products sku [P1, P2] rows).1
        = upsertListing rows p.id P2 x p.price ∧
    (∃ l ∈ (publish_product client lp products sku [P1, P2] rows).1,
        l.product_id = p.id ∧ l.platform = P2 ∧ l.external_id = some x ∧
        l.status = some "active" ∧ l.price = some p.price) ∧
    (⟨"error", "Failed to publish", P1⟩ : LogEntry)
        ∈ (publish_product client lp products sku [P1, P2] rows).2 ∧
    (∀ (ps : List String) (q : String) (cq : Client) (eq : String),
      client q = some cq → lp cq = Except.error eq →
      (publish_product client lp products sku (ps ++ [q]) rows).1
        = (publish_product client lp products sku ps rows).1) := by
  have hstep1 : publishStep client lp p (rows, []) P1
      = (rows, [(⟨"error", "Failed to publish", P1⟩ : LogEntry)]) := by
    simp [publishStep, h1, h1e]
  have hstep2 : publishStep client lp p (rows, [(⟨"error", "Failed to publish", P1⟩ : LogEntry)]) P2
      = (upsertListing rows p.id P2 x p.price,
         [(⟨"error", "Failed to publish", P1⟩ : LogEntry),
          (⟨"info", "Published product", P2⟩ : LogEntry)]) := by
    simp [publishStep, h2, h2x]
  have hfinal : publish_product client lp products sku [P1, P2] rows
      = (upsertListing rows p.id P2 x p.price,
         [(⟨"error", "Failed to publish", P1⟩ : LogEntry),
          (⟨"info", "Published product", P2⟩ : LogEntry)]) := by
    simp only [publish_product, hp, List.foldl_cons, List.foldl_nil]
    rw [hstep1, hstep2]
  refine ⟨by rw [hfinal], ?_, ?_, ?_⟩
  · rw [hfinal]
    exact upsertListing_mem rows p.id P2 x p.price
  · rw [hfinal]
    exact List.mem_cons_self _ _
  · intro ps q cq eq hq hqe
    simp only [publish_product, hp, List.foldl_append, List.foldl_cons, List.foldl_nil]
    simp [publishStep, hq, hqe]

/-- Fixture adapters for the C3 witness: "p1" gets a Facebook adapter whose
`list_product` raises, "p2" a Shopify adapter that succeeds with "EXT9". -/
def wClient : String → Option Client := fun pl =>
  if pl == "p1" then some (.facebook fun _ => none)
  else if pl == "p2" then some (.shopify fun _ => none)
  else none

/-- Fixture `list_product` behaviour for the C3 witness. -/
def wLp : Client → Except String String
  | .facebook _ => .error "boom"
  | _ => .ok "EXT9"

/-- Fixture product for the C3 witness. -/
def wProduct : Product :=
  { id := 1, sku := "S", price := 10, cost_price := none, quantity := 1,
    daysSinceUpdate := none, listings := [] }

/-- Closed witness for C3 at a concrete two-platform publish. -/
theorem publish_partial_failure_isolated_witness :
    (publish_product wClient wLp [wProduct] "S" ["p1", "p2"] []).1
      = upsertListing [] 1 "p2" "EXT9" 10 :=
  (publish_partial_failure_isolated wClient wLp [wProduct] "S" wProduct "p1" "p2"
    (.facebook fun _ => none) (.shopify fun _ => none) "boom" "EXT9" []
    rfl rfl rfl rfl rfl).1

/-! ## Inventory sync (service.py lines 133-146) -/

/-- One iteration of the `for listing in listings` loop of
`sync_inventory`, applied to one listing row: only `active` listings are in
the loop's query; a missing client is skipped; `update_inventory` is called
with the listing's external id and the owning product's quantity, and its
boolean result is ignored — only a raised exception (modelled `.error`)
skips the `last_synced_at` update. -/
def syncInvRow (client : String → Option Client)
    (ui : Client → Option String → Int → Except String Bool)
    (qtyOf : Nat → Int) (now : Nat) (l : ListingRow) : ListingRow :=
  if l.status == some "active" then
    match client l.platform with
    | none => l
    | some cl =>
      match ui cl l.external_id (qtyOf l.product_id) with
      | .error _ => l
      | .ok _ => { l with last_synced := some now }
  else l

/-- `ServiceLayer.sync_inventory` (service.py lines 133-146): each active
listing is synced independently; failures are logged and leave that row
stale; each success is committed on its own. -/
def sync_inventory (client : String → Option Client)
    (ui : Client → Option String → Int → Except String Bool)
    (qtyOf : Nat → Int) (now : Nat) (rows : List ListingRow) : List ListingRow :=
  rows.map (syncInvRow client ui qtyOf now)

/-! ## Order sync (service.py lines 148-177) -/

/-- One imported `Order` row, restricted to its uniqueness key and an opaque
payload standing for the remaining columns. -/
structure OrderRec where
  external_order_id : String
  platform : String
  payload : String
  deriving Repr, DecidableEq

/-- The duplication check of `sync_orders`:
`query(Order).filter(Order.external_order_id == ..., Order.platform ==
platform).first()` — against the committed store (the session is configured
with `autoflush=False`, so rows added but not yet committed are not seen). -/
def orderExists (store : List OrderRec) (extId platform : String) : Bool :=
  store.any fun o => o.external_order_id == extId && o.platform == platform

/-- The `for o in fetched_orders` loop of `sync_orders` for one platform,
followed by the `self.db.commit()` that ends the iteration: every fetched
order whose (external_order_id, loop platform) pair is absent from the store
at the start of the platform's iteration is inserted; the rest are skipped.
Existing rows are never modified — the store only grows. -/
def syncPlatformOrders (store : List OrderRec) (platform : String)
    (fetched : List OrderRec) : List OrderRec :=
  store ++ fetched.foldl
    (fun acc o =>
      if orderExists store o.external_order_id platform then acc else acc ++ [o])
    []

/-- One iteration of the `for c in creds` loop of `ServiceLayer.sync_orders`
(service.py lines 154-177) as a store transformer: `get_client` re-queries
the full credential table, exactly as the source does; `fetch` is the
network behaviour of each constructed client\'s
`fetch_orders(lookback_minutes=60)`, with `.error` modelling a raised
exception, which the per-platform `try/except` turns into a logged no-op. -/
def syncOrdersStep (db : List CredsRecord) (fetch : Client → Except String (List OrderRec))
    (store : List OrderRec) (c : CredsRecord) : List OrderRec :=
  match get_client db c.platform with
  | none => store
  | some cl =>
    match fetch cl with
    | .error _ => store
    | .ok fetched => syncPlatformOrders store c.platform fetched

/-- The `for c in creds` loop over the remaining credential rows. -/
def syncOrdersLoop (db : List CredsRecord) (fetch : Client → Except String (List OrderRec)) :
    List CredsRecord → List OrderRec → List OrderRec
  | [], store => store
  | c :: rest, store => syncOrdersLoop db fetch rest (syncOrdersStep db fetch store c)

/-- `ServiceLayer.sync_orders`: one run over every stored credential row. -/
def sync_orders (db : List CredsRecord) (fetch : Client → Except String (List OrderRec))
    (store : List OrderRec) : List OrderRec :=
  syncOrdersLoop db fetch db store

theorem syncOrdersStep_none (db : List CredsRecord) (fetch : Client → Except String (List OrderRec))
    (store : List OrderRec) (c : CredsRecord) (h : get_client db c.platform = none) :
    syncOrdersStep db fetch store c = store := by
  simp [syncOrdersStep, h]

theorem syncOrdersStep_err (db : List CredsRecord) (fetch : Client → Except String (List OrderRec))
    (store : List OrderRec) (c : CredsRecord) (cl : Client) (e : String)
    (hcl : get_client db c.platform = some cl) (hf : fetch cl = Except.error e) :
    syncOrdersStep db fetch store c = store := by
  simp [syncOrdersStep, hcl, hf]

theorem syncOrdersStep_ok (db : List CredsRecord) (fetch : Client → Except String (List OrderRec))
    (store : List OrderRec) (c : CredsRecord) (cl : Client) (fetched : List OrderRec)
    (hcl : get_client db c.platform = some cl) (hf : fetch cl = Except.ok fetched) :
    syncOrdersStep db fetch store c = syncPlatformOrders store c.platform fetched := by
  simp [syncOrdersStep, hcl, hf]

theorem foldl_insert_eq_filter (p : α → Bool) :
    ∀ (l : List α) (acc : List α),
      l.foldl (fun a o => if p o then a else a ++ [o]) acc
        = acc ++ l.filter (fun o => !p o) := by
  intro l
  induction l with
  | nil => intro acc; simp
  | cons x xs ih =>
    intro acc
    by_cases hx : p x
    · simp [List.foldl_cons, hx, ih]
    · simp [List.foldl_cons, hx, ih]

/-- `syncPlatformOrders` appends exactly the fetched orders whose pair is
absent; it never rewrites an existing row. -/
theorem syncPlatformOrders_eq (store : List OrderRec) (platform : String)
    (fetched : List OrderRec) :
    syncPlatformOrders store platform fetched
      = store ++ fetched.filter (fun o => !orderExists store o.external_order_id platform) := by
  unfold syncPlatformOrders
  rw [foldl_insert_eq_filter, List.nil_append]

theorem orderExists_append (store more : List OrderRec) (e p : String)
    (h : orderExists store e p = true) : orderExists (store ++ more) e p = true := by
  unfold orderExists at h ⊢
  rw [List.any_append, h]
  rfl

theorem orderExists_of_mem (store : List OrderRec) (o : OrderRec) (platform : String)
    (hm : o ∈ store) (hp : o.platform = platform) :
    orderExists store o.external_order_id platform = true := by
  unfold orderExists
  rw [List.any_eq_true]
  exact ⟨o, hm, by simp [hp]⟩

theorem syncPlatformOrders_covers (store : List OrderRec) (platform : String)
    (fetched : List OrderRec) (o : OrderRec) (ho : o ∈ fetched) (hp : o.platform = platform) :
    orderExists (syncPlatformOrders store platform fetched) o.external_order_id platform = true := by
  rw [syncPlatformOrders_eq]
  by_cases h : orderExists store o.external_order_id platform
  · exact orderExists_append _ _ _ _ h
  · refine orderExists_of_mem _ o _ ?_ hp
    refine List.mem_append_right _ ?_
    rw [List.mem_filter]
    exact ⟨ho, by simp [h]⟩

theorem syncOrdersStep_grows (db : List CredsRecord)
    (fetch : Client → Except String (List OrderRec)) (store : List OrderRec)
    (c : CredsRecord) : ∃ added, syncOrdersStep db fetch store c = store ++ added := by
  rcases hcl : get_client db c.platform with _ | cl
  · exact ⟨[], by rw [syncOrdersStep_none db fetch store c hcl, List.append_nil]⟩
  · rcases hf : fetch cl with e | fetched
    · exact ⟨[], by rw [syncOrdersStep_err db fetch store c cl e hcl hf, List.append_nil]⟩
    · exact ⟨_, by rw [syncOrdersStep_ok db fetch store c cl fetched hcl hf,
        syncPlatformOrders_eq]⟩

theorem syncOrdersLoop_grows (db : List CredsRecord)
    (fetch : Client → Except String (List OrderRec)) :
    ∀ (cs : List CredsRecord) (store : List OrderRec),
      ∃ added, syncOrdersLoop db fetch cs store = store ++ added := by
  intro cs
  induction cs with
  | nil => intro store; exact ⟨[], by simp [syncOrdersLoop]⟩
  | cons c rest ih =>
    intro store
    obtain ⟨a1, h1⟩ := syncOrdersStep_grows db fetch store c
    obtain ⟨a2, h2⟩ := ih (syncOrdersStep db fetch store c)
    refine ⟨a1 ++ a2, ?_⟩
    show syncOrdersLoop db fetch rest (syncOrdersStep db fetch store c) = _
    rw [h2, h1, List.append_assoc]

/-- After one run, every order a client actually fetched is present in the
store under the loop platform\'s key (given the adapter stamps its own
platform name, as every variant does). -/
theorem syncOrdersLoop_covers (db : List CredsRecord)
    (fetch : Client → Except String (List OrderRec)) :
    ∀ (cs : List CredsRecord) (store : List OrderRec) (c : CredsRecord) (cl : Client)
      (os : List OrderRec) (o : OrderRec),
      c ∈ cs → get_client db c.platform = some cl → fetch cl = Except.ok os →
      o ∈ os → o.platform = c.platform →
      orderExists (syncOrdersLoop db fetch cs store) o.external_order_id c.platform = true := by
  intro cs
  induction cs with
  | nil => intro store c cl os o hc; exact absurd hc (List.not_mem_nil c)
  | cons c0 rest ih =>
    intro store c cl os o hc hcl hf ho hp
    show orderExists (syncOrdersLoop db fetch rest (syncOrdersStep db fetch store c0))
      o.external_order_id c.platform = true
    rcases List.mem_cons.mp hc with hceq | hcrest
    · subst hceq
      rw [syncOrdersStep_ok db fetch store c cl os hcl hf]
      have hcov := syncPlatformOrders_covers store c.platform os o ho hp
      obtain ⟨added, hadd⟩ := syncOrdersLoop_grows db fetch rest
        (syncPlatformOrders store c.platform os)
      rw [hadd]
      exact orderExists_append _ _ _ _ hcov
    · exact ih _ c cl os o hcrest hcl hf ho hp

/-- A run in which every relevant fetched order already exists in the store
changes nothing. -/
theorem syncOrdersLoop_noop (db : List CredsRecord)
    (fetch : Client → Except String (List OrderRec)) :
    ∀ (cs : List CredsRecord) (store : List OrderRec),
      (∀ c ∈ cs, ∀ cl, get_client db c.platform = some cl →
        ∀ os, fetch cl = Except.ok os →
        ∀ o ∈ os, orderExists store o.external_order_id c.platform = true) →
      syncOrdersLoop db fetch cs store = store := by
  intro cs
  induction cs with
  | nil => intro store _; rfl
  | cons c0 rest ih =>
    intro store hall
    show syncOrdersLoop db fetch rest (syncOrdersStep db fetch store c0) = store
    have hstep : syncOrdersStep db fetch store c0 = store := by
      rcases hcl0 : get_client db c0.platform with _ | cl0
      · exact syncOrdersStep_none db fetch store c0 hcl0
      · rcases hf0 : fetch cl0 with e | fetched0
        · exact syncOrdersStep_err db fetch store c0 cl0 e hcl0 hf0
        · rw [syncOrdersStep_ok db fetch store c0 cl0 fetched0 hcl0 hf0,
            syncPlatformOrders_eq]
          have hfil : fetched0.filter
              (fun o => !orderExists store o.external_order_id c0.platform) = [] := by
            rw [List.filter_eq_nil_iff]
            intro o ho
            have hex := hall c0 (List.mem_cons_self _ _) cl0 hcl0 fetched0 hf0 o ho
            simp [hex]
          rw [hfil, List.append_nil]
    rw [hstep]
    exact ih store fun c hc => hall c (List.mem_cons_of_mem _ hc)

/-- C4: order import is idempotent.  Provided each adapter stamps the loop's
platform name on the orders it returns (every variant does), a second run of
`SyncOrders` over the same fetched orders leaves the store exactly as the
first run left it; each platform iteration only appends the fetched orders
whose (external_order_id, platform) pair is absent from the store — an
already-present pair is silently skipped and the stored rows are never
modified. -/
theorem sync_orders_idempotent (db : List CredsRecord)
    (fetch : Client → Except String (List OrderRec)) (store : List OrderRec)
    (hplat : ∀ c ∈ db, ∀ cl, get_client db c.platform = some cl →
      ∀ os, fetch cl = Except.ok os → ∀ o ∈ os, o.platform = c.platform) :
    sync_orders db fetch (sync_orders db fetch store) = sync_orders db fetch store ∧
    (∀ (st : List OrderRec) (platform : String) (fetched : List OrderRec),
      syncPlatformOrders st platform fetched
        = st ++ fetched.filter (fun o => !orderExists st o.external_order_id platform)) ∧
    (∃ added, sync_orders db fetch store = store ++ added) := by
  refine ⟨?_, syncPlatformOrders_eq, syncOrdersLoop_grows db fetch db store⟩
  unfold sync_orders
  apply syncOrdersLoop_noop
  intro c hc cl hcl os hos o ho
  exact syncOrdersLoop_covers db fetch db store c cl os o hc hcl hos ho
    (hplat c hc cl hcl os hos o ho)

/-- Fixture for the C4 witness: one Shopify credential row. -/
def wCreds : CredsRecord :=
  { platform := "shopify", api_key := none, api_secret := none,
    access_token := some "t", refresh_token := none, marketplace_id := none,
    merchant_id := none, additional_config := none }

/-- Fixture fetch behaviour for the C4 witness: the platform reports one
order, the same on both runs. -/
def wFetch : Client → Except String (List OrderRec) :=
  fun _ => Except.ok [{ external_order_id := "o1", platform := "shopify", payload := "p" }]

/-- Closed witness for C4: with one Shopify credential row and a fetch that
reports order "o1" each time, the second run adds nothing. -/
theorem sync_orders_idempotent_witness :
    sync_orders [wCreds] wFetch (sync_orders [wCreds] wFetch [])
      = sync_orders [wCreds] wFetch [] :=
  (sync_orders_idempotent [wCreds] wFetch []
    (by
      intro c hc cl hcl os hos o ho
      have hc' : c = wCreds := by simpa using hc
      subst hc'
      have hos' : os = [{ external_order_id := "o1", platform := "shopify", payload := "p" }] := by
        simpa [wFetch] using hos.symm
      subst hos'
      have ho' : o = { external_order_id := "o1", platform := "shopify", payload := "p" } := by
        simpa using ho
      subst ho'
      rfl)).1

/-- C9: a platform with no stored credential row resolves to no adapter, an
unknown platform name (even with a stored row) resolves to no adapter, and
each orchestrator operation treats a missing adapter as "skip this
platform": `publish_product`'s loop body leaves the listing table untouched
and only logs a warning, `sync_inventory` leaves the listing row untouched,
and `sync_orders`'s loop body leaves the order store untouched. -/
theorem get_client_missing_skip (db : List CredsRecord) (P : String) :
    (findCreds db P = none → get_client db P = none) ∧
    (P ∉ knownPlatforms → get_client db P = none) ∧
    (∀ (client : String → Option Client) (lp : Client → Except String String)
      (p : Product) (st : List ListingRow × List LogEntry),
      client P = none →
      publishStep client lp p st P
        = (st.1, st.2 ++ [⟨"warn", "No credentials for platform", P⟩])) ∧
    (∀ (client : String → Option Client)
      (ui : Client → Option String → Int → Except String Bool)
      (qtyOf : Nat → Int) (now : Nat) (l : ListingRow),
      client l.platform = none → syncInvRow client ui qtyOf now l = l) ∧
    (∀ (fetch : Client → Except String (List OrderRec)) (store : List OrderRec)
      (c : CredsRecord), get_client db c.platform = none →
      syncOrdersStep db fetch store c = store) := by
  refine ⟨?_, ?_, ?_, ?_, ?_⟩
  · intro h
    simp [get_client, h]
  · intro h
    rcases hf : findCreds db P with _ | creds
    · simp [get_client, hf]
    · simp only [knownPlatforms, List.mem_cons, List.mem_singleton,
        List.not_mem_nil, or_false] at h
      push_neg at h
      obtain ⟨h1, h2, h3, h4, h5, h6, h7⟩ := h
      simp [get_client, hf, h1, h2, h3, h4, h5, h6, h7]
  · intro client lp p st h
    simp [publishStep, h]
  · intro client ui qtyOf now l h
    simp [syncInvRow, h]
  · intro fetch store c h
    exact syncOrdersStep_none db fetch store c h

/-- A stored credential row with an unknown platform name, for the C9
witness. -/
def wUnknownCreds : CredsRecord :=
  { platform := "myspace", api_key := none, api_secret := none,
    access_token := none, refresh_token := none, marketplace_id := none,
    merchant_id := none, additional_config := none }

/-- Closed witness for C9: with an empty credential table `get_client`
yields no Shopify adapter, and a stored row for the unknown platform
"myspace" also yields no adapter. -/
theorem get_client_missing_skip_witness :
    get_client [] "shopify" = none ∧ get_client [wUnknownCreds] "myspace" = none :=
  ⟨(get_client_missing_skip [] "shopify").1 rfl,
   (get_client_missing_skip [wUnknownCreds] "myspace").2.1
     (by simp [knownPlatforms])⟩

/-! ## Adapter transport model

A single outbound HTTP call is `Option Nat`: `none` models the `requests`
library raising a transport exception (connection error, timeout), `some s`
a response that arrived with status code `s`.  Raised Python exceptions are
`Except.error`. -/

/-- The HTTP call in the `Except` monad: a transport failure raises. -/
def httpRequest (t : Option Nat) : Except Unit Nat :=
  match t with
  | none => Except.error ()
  | some s => Except.ok s

/-- Python `try: <body> except: return <fallback>` around a
boolean-returning method body. -/
def pyTryBool (body : Except Unit Bool) (fallback : Bool) : Except Unit Bool :=
  match body with
  | .ok b => .ok b
  | .error _ => .ok fallback

/-- `ShopifyClient.validate_connection` (shopify_client.py lines 21-27):
GET `/shop.json` inside `try/except`, comparing the status to 200. -/
def shopify_validate_connection (t : Option Nat) : Except Unit Bool :=
  pyTryBool (do let s ← httpRequest t; pure (s == 200)) false

/-- `EbayClient.validate_connection` (ebay_client.py lines 24-30): GET one
inventory item inside `try/except`. -/
def ebay_validate_connection (t : Option Nat) : Except Unit Bool :=
  pyTryBool (do let s ← httpRequest t; pure (s == 200)) false

/-- `AmazonSPAPIClient.validate_connection` (amazon_client.py lines 41-46):
GET marketplace participations inside `try/except`. -/
def amazon_validate_connection (t : Option Nat) : Except Unit Bool :=
  pyTryBool (do let s ← httpRequest t; pure (s == 200)) false

/-- `TikTokClient.validate_connection` (tiktok_client.py lines 70-76): GET
the authorized shop inside `try/except`. -/
def tiktok_validate_connection (t : Option Nat) : Except Unit Bool :=
  pyTryBool (do let s ← httpRequest t; pure (s == 200)) false

/-- `WalmartClient.validate_connection` (walmart_client.py lines 58-59):
no request at all — just `self.token is not None`, where `_get_token`
already swallowed its own errors during `__init__`. -/
def walmart_validate_connection (token : Option String) : Except Unit Bool :=
  Except.ok token.isSome

/-- `EtsyClient.validate_connection` (etsy_client.py lines 25-27): GET the
shop **without** any `try/except` — a transport exception propagates. -/
def etsy_validate_connection (t : Option Nat) : Except Unit Bool := do
  let s ← httpRequest t
  pure (s == 200)

/-- `FacebookClient.validate_connection` (facebook_client.py lines 16-18):
GET the catalog **without** any `try/except` — a transport exception
propagates. -/
def facebook_validate_connection (t : Option Nat) : Except Unit Bool := do
  let s ← httpRequest t
  pure (s == 200)

/-- C5 (counterexample): the claim "for every adapter variant,
validate_connection never raises" is false — the Etsy and Facebook variants
have no `try/except`, so a transport exception propagates out of
`validate_connection` instead of degrading to `false`. -/
theorem validate_connection_raises_counterexample :
    etsy_validate_connection none = Except.error () ∧
    facebook_validate_connection none = Except.error () :=
  ⟨rfl, rfl⟩

/-- C5 (amended): the Shopify, eBay, Amazon and TikTok adapters never raise
from `validate_connection` — a transport error degrades to `false` and a
response yields the status-200 test — and Walmart issues no request at all;
but the Etsy and Facebook variants return the status test only when a
response arrives and propagate a transport exception. -/
theorem validate_connection_amended :
    (∀ t : Option Nat,
      shopify_validate_connection t = Except.ok (t.elim false (fun s => s == 200)) ∧
      ebay_validate_connection t = Except.ok (t.elim false (fun s => s == 200)) ∧
      amazon_validate_connection t = Except.ok (t.elim false (fun s => s == 200)) ∧
      tiktok_validate_connection t = Except.ok (t.elim false (fun s => s == 200))) ∧
    (∀ token : Option String, walmart_validate_connection token = Except.ok token.isSome) ∧
    (∀ s : Nat, etsy_validate_connection (some s) = Except.ok (s == 200) ∧
      facebook_validate_connection (some s) = Except.ok (s == 200)) ∧
    etsy_validate_connection none = Except.error () ∧
    facebook_validate_connection none = Except.error () := by
  refine ⟨?_, fun _ => rfl, fun _ => ⟨rfl, rfl⟩, rfl, rfl⟩
  intro t
  cases t <;> exact ⟨rfl, rfl, rfl, rfl⟩

/-! ## fetch_orders (shopify_client.py lines 98-123, ebay_client.py lines
142-164, walmart_client.py lines 98-122)

The transport outcome of the order-fetch call is `Option (Nat × List
RawOrder)`: `none` is a raised transport exception, otherwise the status
code together with the order objects decoded from the body.  Construction of
an `Order` row from one decoded object is abstracted to copying its
identifier and an opaque payload, with the adapter stamping its own platform
name. -/

/-- One order object of the decoded response body, restricted to what the
model keeps. -/
structure RawOrder where
  id : String
  payload : String
  deriving Repr, DecidableEq

/-- `ShopifyClient.fetch_orders`: no `try/except`; a non-200 status returns
`[]`; a 200 response is mapped to `Order` rows with `platform='shopify'`. -/
def shopify_fetch_orders (t : Option (Nat × List RawOrder)) : Except Unit (List OrderRec) :=
  match t with
  | none => Except.error ()
  | some (s, raws) =>
    if s ≠ 200 then Except.ok []
    else Except.ok (raws.map fun r =>
      { external_order_id := r.id, platform := "shopify", payload := r.payload })

/-- `EbayClient.fetch_orders`: same shape with `platform='ebay'`. -/
def ebay_fetch_orders (t : Option (Nat × List RawOrder)) : Except Unit (List OrderRec) :=
  match t with
  | none => Except.error ()
  | some (s, raws) =>
    if s ≠ 200 then Except.ok []
    else Except.ok (raws.map fun r =>
      { external_order_id := r.id, platform := "ebay", payload := r.payload })

/-- `WalmartClient.fetch_orders`: same shape with `platform='walmart'`. -/
def walmart_fetch_orders (t : Option (Nat × List RawOrder)) : Except Unit (List OrderRec) :=
  match t with
  | none => Except.error ()
  | some (s, raws) =>
    if s ≠ 200 then Except.ok []
    else Except.ok (raws.map fun r =>
      { external_order_id := r.id, platform := "walmart", payload := r.payload })

/-- C6 (counterexample): the claim that `fetch_orders` "returns an empty
list and never raises on a transport failure or a non-success response" is
false for its transport half — none of the three cited adapters wraps the
request in `try/except`, so a transport exception propagates (it is the
orchestrator's `try/except` in `sync_orders` that eventually absorbs it). -/
theorem fetch_orders_raises_counterexample :
    shopify_fetch_orders none = Except.error () ∧
    ebay_fetch_orders none = Except.error () ∧
    walmart_fetch_orders none = Except.error () :=
  ⟨rfl, rfl, rfl⟩

/-- C6 (amended): on any response whose status is not 200, all three
adapters return an empty list without raising; on a transport failure the
exception propagates. -/
theorem fetch_orders_nonsuccess_empty (s : Nat) (raws : List RawOrder) (hs : s ≠ 200) :
    shopify_fetch_orders (some (s, raws)) = Except.ok [] ∧
    ebay_fetch_orders (some (s, raws)) = Except.ok [] ∧
    walmart_fetch_orders (some (s, raws)) = Except.ok [] ∧
    shopify_fetch_orders none = Except.error () ∧
    ebay_fetch_orders none = Except.error () ∧
    walmart_fetch_orders none = Except.error () := by
  refine ⟨?_, ?_, ?_, rfl, rfl, rfl⟩ <;>
    simp [shopify_fetch_orders, ebay_fetch_orders, walmart_fetch_orders, hs]

/-- Closed witness for C6 (amended) at status 500. -/
theorem fetch_orders_nonsuccess_empty_witness :
    shopify_fetch_orders (some (500, [{ id := "a", payload := "b" }])) = Except.ok [] :=
  (fetch_orders_nonsuccess_empty 500 [{ id := "a", payload := "b" }] (by decide)).1

/-! ## eBay multi-step list_product (ebay_client.py lines 32-79) -/

/-- The transport outcomes of the three calls `EbayClient.list_product`
makes: PUT inventory_item, POST offer (whose 201 body carries the offer
id), POST offer publish. -/
structure EbayNet where
  inv : Option Nat
  offer : Option (Nat × String)
  publish : Option Nat
  deriving Repr, DecidableEq

/-- `EbayClient.list_product`: raise unless the inventory-item PUT returns
200/204; raise unless the offer POST returns 201; on 201, publish the offer
— a non-200 publish response is only logged ("Failed to publish eBay
offer") and the created offer id is returned anyway.  Transport exceptions
(`none`) propagate from whichever call raised them. -/
def ebay_list_product (net : EbayNet) : Except String String × List LogEntry :=
  match net.inv with
  | none => (Except.error "transport", [])
  | some sInv =>
    if sInv ≠ 200 ∧ sInv ≠ 204 then (Except.error "eBay Inventory Item create failed", [])
    else
      match net.offer with
      | none => (Except.error "transport", [])
      | some (sOff, offerId) =>
        if sOff = 201 then
          match net.publish with
          | none => (Except.error "transport", [])
          | some sPub =>
            if sPub = 200 then (Except.ok offerId, [])
            else (Except.ok offerId,
              [⟨"error", "Failed to publish eBay offer", offerId⟩])
        else (Except.error "eBay Offer create failed", [])

/-- C8 (counterexample): "if the publish step fails after the offer was
successfully created, list_product still returns the created offer id
rather than raising" is false when the publish step's failure is a
transport-level exception: with the inventory item accepted (200) and the
offer created (201, id "OFF1"), a raised publish request propagates and the
call returns no identifier at all. -/
theorem ebay_list_product_publish_raise_counterexample :
    (ebay_list_product { inv := some 200, offer := some (201, "OFF1"), publish := none }).1
      = Except.error "transport" ∧
    (ebay_list_product { inv := some 200, offer := some (201, "OFF1"), publish := none }).1
      ≠ Except.ok "OFF1" := by
  exact ⟨rfl, fun h => Except.noConfusion h⟩

/-- C8 (amended): when the publish call completes with a non-success
response after the offer was created, `list_product` returns the created
offer id and logs the degraded "created but not published" state; a
successful publish also returns the offer id; a non-success response to the
inventory-item or offer-creation step raises; and a transport-level
exception at any of the three calls — including the publish call —
propagates instead of returning the offer id. -/
theorem ebay_list_product_partial_progress (sInv sOff sPub : Nat) (offerId : String) :
    (sInv = 200 ∨ sInv = 204 → sPub ≠ 200 →
      ebay_list_product { inv := some sInv, offer := some (201, offerId), publish := some sPub }
        = (Except.ok offerId, [⟨"error", "Failed to publish eBay offer", offerId⟩])) ∧
    (sInv = 200 ∨ sInv = 204 →
      ebay_list_product { inv := some sInv, offer := some (201, offerId), publish := some 200 }
        = (Except.ok offerId, [])) ∧
    (sInv = 200 ∨ sInv = 204 → sOff ≠ 201 →
      (ebay_list_product { inv := some sInv, offer := some (sOff, offerId), publish := some sPub }).1
        = Except.error "eBay Offer create failed") ∧
    (sInv ≠ 200 ∧ sInv ≠ 204 →
      ∀ net : EbayNet, net.inv = some sInv →
        (ebay_list_product net).1 = Except.error "eBay Inventory Item create failed") ∧
    (∀ net : EbayNet, net.inv = none →
      (ebay_list_product net).1 = Except.error "transport") ∧
    (sInv = 200 ∨ sInv = 204 → ∀ pub : Option Nat,
      (ebay_list_product { inv := some sInv, offer := none, publish := pub }).1
        = Except.error "transport") ∧
    (sInv = 200 ∨ sInv = 204 →
      (ebay_list_product { inv := some sInv, offer := some (201, offerId), publish := none }).1
        = Except.error "transport") := by
  have hInvOk : sInv = 200 ∨ sInv = 204 → ¬(sInv ≠ 200 ∧ sInv ≠ 204) := by
    rintro (h | h) <;> simp [h]
  refine ⟨?_, ?_, ?_, ?_, ?_, ?_, ?_⟩
  · intro hInv hpub
    simp [ebay_list_product, hInvOk hInv, hpub]
  · intro hInv
    simp [ebay_list_product, hInvOk hInv]
  · intro hInv hoff
    simp [ebay_list_product, hInvOk hInv, hoff]
  · intro hbad net hnet
    rcases net with ⟨inv, offer, publish⟩
    cases hnet
    simp [ebay_list_product, hbad]
  · intro net hnet
    rcases net with ⟨inv, offer, publish⟩
    cases hnet
    simp [ebay_list_product]
  · intro hInv pub
    simp [ebay_list_product, hInvOk hInv]
  · intro hInv
    simp [ebay_list_product, hInvOk hInv]

/-- Closed witness for C8 (amended): inventory accepted with 200, offer
created as "OFF1", publish rejected with 500 — the offer id is still
returned, with the degraded state logged. -/
theorem ebay_list_product_partial_progress_witness :
    ebay_list_product { inv := some 200, offer := some (201, "OFF1"), publish := some 500 }
      = (Except.ok "OFF1", [⟨"error", "Failed to publish eBay offer", "OFF1"⟩]) :=
  (ebay_list_product_partial_progress 200 201 500 "OFF1").1 (Or.inl rfl) (by decide)

/-! ## CSV ingestion (service.py lines 22-69)

`ingest_csv` wraps the whole read-and-upsert in one `try`: pandas parses the
entire file up front (so a malformed row is a read failure), the only
`commit` is after the loop, and the `except` branch rolls the session back
and re-raises.  The input is therefore `Except`: `.error` models
`pd.read_csv` (or anything in the `try` block) raising, `.ok rows` a
successfully parsed file.  The per-row `float`/`int` conversions sit in
inner `try/except: pass` blocks and cannot abort the batch. -/

/-- One parsed CSV row as the loop body reads it.  `none` in an outer
`Option` models a column absent from the file; for `price`/`quantity`,
`some none` models a present cell whose `float`/`int` conversion raises
(the inner `except: pass` then keeps the previous value).  `images`/`tags`
hold the raw cell only when it is a string (`isinstance(..., str)`). -/
structure CsvRow where
  sku : String
  title : Option String
  description : Option String
  price : Option (Option ℚ)
  quantity : Option (Option Int)
  category : Option String
  images : Option String
  tags : Option String
  deriving Repr, DecidableEq

/-- One catalog `Product` row as ingestion sees it (fields unassigned since
object creation are `none`). -/
structure ProductRow where
  sku : String
  title : Option String
  description : Option String
  price : Option ℚ
  quantity : Option Int
  category : Option String
  images : Option (List String)
  tags : Option (List String)
  deriving Repr, DecidableEq

/-- `Product(sku=sku)`: a fresh product with only the SKU set. -/
def newProduct (sku : String) : ProductRow :=
  { sku := sku, title := none, description := none, price := none,
    quantity := none, category := none, images := none, tags := none }

/-- The field assignments of the loop body (service.py lines 41-60): absent
columns keep the previous value for text fields, assign the converted
default `0` for `price`/`quantity`, and unconvertible `price`/`quantity`
cells are skipped by `except: pass`; string-valued `images`/`tags` cells
are split on commas. -/
def applyRow (r : CsvRow) (p : ProductRow) : ProductRow :=
  { p with
    title := match r.title with | none => p.title | some t => some t
    description := match r.description with | none => p.description | some d => some d
    price := match r.price with
      | none => some 0
      | some none => p.price
      | some (some q) => some q
    quantity := match r.quantity with
      | none => some 0
      | some none => p.quantity
      | some (some n) => some n
    category := match r.category with | none => p.category | some c => some c
    images := match r.images with | none => p.images | some s => some (s.splitOn ",")
    tags := match r.tags with | none => p.tags | some s => some (s.splitOn ",") }

/-- The catalog session: the committed table and the session's in-memory
object states (equal except for uncommitted work). -/
structure CatalogDb where
  committed : List ProductRow
  pending : List ProductRow
  deriving Repr, DecidableEq

/-- Python `str.strip()`: drop leading and trailing whitespace. -/
def pyStrip (s : String) : String :=
  String.mk (((s.data.dropWhile Char.isWhitespace).reverse.dropWhile Char.isWhitespace).reverse)

/-- One iteration of the row loop: strip the SKU and skip falsy (empty)
ones; the existence query hits the committed table (`autoflush=False`), but
an existing product's returned object is the session's (identity map), so
updates land on the pending state; a product absent from the committed
table is created fresh and added to the session. -/
def ingestRow (committed : List ProductRow) (pending : List ProductRow)
    (r : CsvRow) : List ProductRow :=
  let sku := pyStrip r.sku
  if sku = "" then pending
  else if committed.any (fun p => p.sku == sku) then
    updateFirst (fun p => p.sku == sku) (applyRow r) pending
  else pending ++ [applyRow r (newProduct sku)]

/-- The whole row loop. -/
def ingestRows (committed : List ProductRow) (rows : List CsvRow)
    (pending : List ProductRow) : List ProductRow :=
  rows.foldl (ingestRow committed) pending

/-- `ServiceLayer.ingest_csv`: on a read failure, roll back the session and
re-raise; otherwise run the loop and commit once at the end. -/
def ingest_csv (input : Except String (List CsvRow)) (db : CatalogDb) :
    CatalogDb × Option String :=
  match input with
  | .error e => ({ committed := db.committed, pending := db.committed }, some e)
  | .ok rows =>
    let p := ingestRows db.committed rows db.pending
    ({ committed := p, pending := p }, none)

/-- C10: catalog ingestion is atomic.  When the guarded block fails (the
file read raises, which is where any malformed row surfaces, since pandas
parses the file up front and the per-row conversions are swallowed by
`except: pass`), the session is rolled back — the committed table is
exactly what it was before the call and no pending work survives — and the
error is re-raised to the caller.  A successful parse commits the whole
batch at once and raises nothing.  A row whose stripped SKU is empty is
skipped without affecting the processing of the remaining rows. -/
theorem ingest_csv_atomic (db : CatalogDb) (e : String) (rows : List CsvRow) :
    ((ingest_csv (Except.error e) db).1.committed = db.committed ∧
     (ingest_csv (Except.error e) db).1.pending = db.committed ∧
     (ingest_csv (Except.error e) db).2 = some e) ∧
    ((ingest_csv (Except.ok rows) db).2 = none ∧
     (ingest_csv (Except.ok rows) db).1.committed
        = ingestRows db.committed rows db.pending) ∧
    (∀ (committed pending : List ProductRow) (r : CsvRow) (rest : List CsvRow),
      pyStrip r.sku = "" →
      ingestRows committed (r :: rest) pending = ingestRows committed rest pending) := by
  refine ⟨⟨rfl, rfl, rfl⟩, ⟨rfl, rfl⟩, ?_⟩
  intro committed pending r rest h
  simp [ingestRows, ingestRow, h]

/-- A CSV row whose SKU cell strips to the empty string. -/
def emptySkuRow : CsvRow :=
  { sku := "  ", title := some "T", description := none, price := some (some 5),
    quantity := some (some 1), category := none, images := none, tags := none }

/-- Closed witness for C10: a failed read at a concrete dirty session rolls
the committed table back unchanged, and the empty-SKU row is skipped. -/
theorem ingest_csv_atomic_witness :
    (ingest_csv (Except.error "boom")
      { committed := [newProduct "A"], pending := [newProduct "A", newProduct "B"] }).1.committed
      = [newProduct "A"] ∧
    ingestRows [] [emptySkuRow] [] = [] :=
  ⟨(ingest_csv_atomic
      { committed := [newProduct "A"], pending := [newProduct "A", newProduct "B"] }
      "boom" []).1.1,
   Eq.trans
    ((ingest_csv_atomic { committed := [], pending := [] } "x" []).2.2
      [] [] emptySkuRow [] (by decide))
    rfl⟩

end EcomDominator
